import Mathlib

/-!
Verification development for the educational-video generation backend
(`backend/ai_pipeline.py`, `backend/main.py`, `backend/crud.py`,
`backend/models.py`, `backend/schemas.py`).

The Python code is shallowly embedded: pure fragments become Lean
functions, the database becomes an explicit record of tables, external
collaborators (hosted LLM, hosted TTS, diffusion model, ffmpeg) become
oracle parameters or recorded commands, and Python exceptions become
`Except` values tagged with the operation that raised.
-/

/-! ## Python string helpers

The pipeline uses `str.split('.')`, `str.strip()`, `str.replace`,
`os.path.join` and `os.path.dirname`.  They are modelled here over
`String` (a structure over `List Char`), with the same observable
behaviour on the inputs the program produces.
-/

/-- Python whitespace for `str.strip`: space, \t, \n, \r, \v, \f. -/
def isPySpace (c : Char) : Bool :=
  c.toNat = 32 || c.toNat = 9 || c.toNat = 10 || c.toNat = 13 ||
  c.toNat = 11 || c.toNat = 12

/-- Python `s.strip()`: drop leading and trailing whitespace. -/
def pyStrip (s : String) : String :=
  ⟨((s.data.dropWhile isPySpace).reverse.dropWhile isPySpace).reverse⟩

/-- Python `s.split('.')` on the character level: split at every dot,
keeping empty segments, with `[""]` for the empty string. -/
def splitDot : List Char → List (List Char)
  | [] => [[]]
  | c :: cs =>
    if c = '.' then [] :: splitDot cs
    else
      match splitDot cs with
      | [] => [[c]]
      | l :: ls => (c :: l) :: ls

/-- Python `s.split('.')`. -/
def pySplitDot (s : String) : List String :=
  (splitDot s.data).map (fun l => ⟨l⟩)

/-- One step of Python `str.replace`: replace left-to-right,
non-overlapping, with a fuel bound (the string length suffices because
every step consumes at least one character when the pattern is
non-empty). -/
def replaceAllFuel (pat rep : List Char) : Nat → List Char → List Char
  | _, [] => []
  | 0, s => s
  | fuel + 1, c :: cs =>
    if pat ≠ [] ∧ pat.isPrefixOf (c :: cs) then
      rep ++ replaceAllFuel pat rep fuel (List.drop pat.length (c :: cs))
    else
      c :: replaceAllFuel pat rep fuel cs

/-- Python `s.replace(pat, rep)` for a non-empty pattern. -/
def pyReplace (s pat rep : String) : String :=
  ⟨replaceAllFuel pat.data rep.data s.data.length s.data⟩

/-- Whether the string begins with the given string (kernel-reducible
replacement for the core byte-level test). -/
def strBeginsWith (s pre : String) : Bool :=
  pre.data.isPrefixOf s.data

/-- Whether the string ends with the given string. -/
def strFinishesWith (s suf : String) : Bool :=
  suf.data.reverse.isPrefixOf s.data.reverse

/-- `os.path.join(a, b)` as the program uses it: the second component is
never absolute and the first never ends in a slash, so this is the posix
join rule restricted to those cases. -/
def pathJoin (a b : String) : String :=
  if a = "" then b
  else if strBeginsWith b "/" then b
  else if strFinishesWith a "/" then a ++ b
  else a ++ "/" ++ b

/-- `os.path.dirname(p)`: everything before the last slash, with the
posix normalisation of trailing slashes. -/
def dirname (s : String) : String :=
  let r := s.data.reverse.dropWhile (fun c => c ≠ '/')
  if r.all (fun c => c = '/') then ⟨r.reverse⟩
  else ⟨(r.dropWhile (fun c => c = '/')).reverse⟩

/-! ## `backend/ai_pipeline.py` — the four stage functions

External collaborators are parameters: the hosted causal LLM is an
oracle `String → String`, the TTS HTTP exchange is a recorded response,
the diffusion model call is recorded per prompt, and the two ffmpeg
invocations are returned as data (the code never inspects their output
beyond `check=True`).
-/

/-- `enhance_text(input_text)`: one blocking call into the hosted
language model; the model itself is the oracle `generator`. -/
def enhance_text (generator : String → String) (input_text : String) : String :=
  generator input_text

/-- The HTTP response the ElevenLabs TTS endpoint returns:
`response.status_code` and `response.content` (raw bytes). -/
structure TTSResponse where
  status_code : Nat
  content : List Nat
deriving DecidableEq, Repr

/-- The two `RuntimeError` sites of `generate_audio`. -/
inductive TTSError
  | missingKey
  | apiError (status : Nat)
deriving DecidableEq, Repr

/-- `generate_audio(text, voice, out_path, api_key=...)`.

`api_key is None` falls back to `os.getenv("ELEVENLABS_API_KEY")`
(modelled by `env_key`); `if not api_key` also rejects the empty
string.  On `status_code != 200` it raises; otherwise it writes
`response.content` to `out_path` and returns `out_path`.  The returned
pair is (path written, bytes written). -/
def generate_audio (text voice out_path : String)
    (api_key env_key : Option String) (response : TTSResponse) :
    Except TTSError (String × List Nat) :=
  let key := match api_key with
    | none => env_key
    | some k => some k
  match key with
  | none => .error .missingKey
  | some k =>
    if k = "" then .error .missingKey
    else if response.status_code ≠ 200 then .error (.apiError response.status_code)
    else .ok (out_path, response.content)

/-- Result of `generate_images`: the prompts sent to the diffusion
model (one `pipe(prompt)` call each, in loop order) and the image paths
written and returned. -/
structure ImgGen where
  calls : List String
  paths : List String
deriving DecidableEq, Repr

/-- `generate_images(prompts, out_dir)`: `for i, prompt in
enumerate(prompts)` — one model call per prompt, saving to
`out_dir/img_{i+1}.png` and appending that path. -/
def generate_images (prompts : List String) (out_dir : String) : ImgGen :=
  { calls := prompts
    paths := prompts.enum.map
      (fun ip => pathJoin out_dir ("img_" ++ toString (ip.1 + 1) ++ ".png")) }

/-- The Python exceptions `assemble_video` can raise before reaching
ffmpeg, tagged by the operation that raises. -/
inductive AsmError
  | indexFirstImage
  | divDurationByCount
  | divOneByImgDuration
deriving DecidableEq, Repr

/-- What `assemble_video` does once it reaches the external tool: the
two ffmpeg invocations (as the data they depend on), the intermediate
file it deletes, and the returned path. -/
structure AsmPlan where
  img_pattern : String
  video_tmp : String
  img_duration : Int
  audio_in : String
  removed : String
  ret : String
deriving DecidableEq, Repr

/-- `assemble_video(image_paths, audio_path, out_path, duration)`.

Line by line: `image_paths[0]` (IndexError on an empty list), the
pattern and tmp names, `img_duration = duration // img_count`
(Python floor division; ZeroDivisionError when `img_count == 0`),
the framerate string `str(1/img_duration)` (ZeroDivisionError when
`img_duration == 0`), the two `subprocess.run` calls, the
`os.remove(video_tmp)`, and `return out_path`. -/
def assemble_video (image_paths : List String) (audio_path : String)
    (out_path : String) (duration : Int) : Except AsmError AsmPlan :=
  match image_paths.head? with
  | none => .error .indexFirstImage
  | some first =>
    let img_pattern := pathJoin (dirname first) "img_%d.png"
    let video_tmp := pyReplace out_path ".mp4" "_tmp.mp4"
    let img_count : Int := (image_paths.length : Int)
    if img_count = 0 then .error .divDurationByCount
    else
      let img_duration := Int.fdiv duration img_count
      if img_duration = 0 then .error .divOneByImgDuration
      else
        .ok { img_pattern := img_pattern
              video_tmp := video_tmp
              img_duration := img_duration
              audio_in := audio_path
              removed := video_tmp
              ret := out_path }

/-- The prompt list built at `process_video_pipeline` step 2:
`[f"{template} educational image: {line.strip()}" for line in
enhanced_text.split('.') if line.strip()][:3]`. -/
def buildPrompts (template enhanced_text : String) : List String :=
  (((pySplitDot enhanced_text).filter (fun line => pyStrip line ≠ "")).map
    (fun line => template ++ " educational image: " ++ pyStrip line)).take 3

/-! ## `process_video_pipeline` — orchestration

`job_id = str(uuid.uuid4())` is the identifier drawn at the start of
the invocation; the embedding receives it as the parameter `job_id`.
The run is recorded as an observable trace: which stages executed, in
order, and which artifact files were written, in order.
-/

/-- The four pipeline stages, in the order the code names them. -/
inductive Stage
  | enhance
  | genImages
  | genAudio
  | assemble
deriving DecidableEq, Repr

/-- The dict `process_video_pipeline` returns. -/
structure PipelineResult where
  job_id : String
  video_path : String
  image_paths : List String
  audio_path : String
  prompts : List String
  enhanced_text : String
deriving DecidableEq, Repr

/-- An exception propagating out of the pipeline. -/
inductive PipeError
  | tts (e : TTSError)
  | ffmpeg (e : AsmError)
deriving DecidableEq, Repr

/-- Observable run of one pipeline invocation: stages executed in
order, artifact files written in order, and the outcome. -/
structure PipeOut where
  stages : List Stage
  writes : List String
  outcome : Except PipeError PipelineResult
deriving Repr

/-- `process_video_pipeline(text, template, voice_type, user_id,
out_dir, duration, elevenlabs_api_key)`.

Steps, as in the source: make `job_dir = os.path.join(out_dir,
job_id)`; 1. enhance text; 2. extract prompts; 3. generate images into
`job_dir`; 4. generate audio to `job_dir/audio.mp3`; 5. assemble video
at `job_dir/video.mp4`; return the result dict. -/
def process_video_pipeline (text template voice_type user_id : String)
    (out_dir : String) (duration : Int) (job_id : String)
    (generator : String → String) (ttsResponse : TTSResponse)
    (elevenlabs_api_key env_key : Option String) : PipeOut :=
  let job_dir := pathJoin out_dir job_id
  let enhanced_text := enhance_text generator text
  let prompts := buildPrompts template enhanced_text
  let imgs := generate_images prompts job_dir
  let audio_path := pathJoin job_dir "audio.mp3"
  match generate_audio enhanced_text voice_type audio_path
      elevenlabs_api_key env_key ttsResponse with
  | .error e =>
    { stages := [.enhance, .genImages, .genAudio]
      writes := imgs.paths
      outcome := .error (.tts e) }
  | .ok (apath, _bytes) =>
    let video_path := pathJoin job_dir "video.mp4"
    match assemble_video imgs.paths apath video_path duration with
    | .error e =>
      { stages := [.enhance, .genImages, .genAudio, .assemble]
        writes := imgs.paths ++ [apath]
        outcome := .error (.ffmpeg e) }
    | .ok _plan =>
      { stages := [.enhance, .genImages, .genAudio, .assemble]
        writes := imgs.paths ++ [apath, video_path]
        outcome := .ok
          { job_id := job_id
            video_path := video_path
            image_paths := imgs.paths
            audio_path := apath
            prompts := prompts
            enhanced_text := enhanced_text } }

/-! ## `backend/models.py`, `backend/crud.py`, `backend/main.py`

The two tables become lists of records; SQLAlchemy's autoincrement
primary keys become explicit `next…Id` counters.  `user_id` stays a
`Nat` key and emails stay strings.
-/

/-- A row of the `users` table (`models.User`): id, unique email,
quota (default 10).  The creation timestamp plays no role in any
operation and is omitted. -/
structure UserRec where
  id : Nat
  email : String
  video_quota : Int
deriving DecidableEq, Repr

/-- A row of the `videos` table (`models.Video`): id, owner, title,
original text, url (nullable), template, status (default
"processing"). -/
structure VideoRec where
  id : Nat
  user_id : Nat
  title : String
  original_text : String
  video_url : Option String
  template : String
  status : String
deriving DecidableEq, Repr

/-- The database: both tables plus the autoincrement counters. -/
structure DB where
  users : List UserRec
  videos : List VideoRec
  nextUserId : Nat
  nextVideoId : Nat
deriving DecidableEq, Repr

/-- `schemas.UserCreate` carries only an email. -/
structure UserCreate where
  email : String
deriving DecidableEq, Repr

/-- `schemas.VideoCreate`: title, original_text, template. -/
structure VideoCreate where
  title : String
  original_text : String
  template : String
deriving DecidableEq, Repr

/-- `crud.get_user_by_email`: first user whose email matches. -/
def get_user_by_email (db : DB) (email : String) : Option UserRec :=
  db.users.find? (fun u => u.email = email)

/-- `crud.create_user`: insert `models.User(email=...)` with the
default quota and a fresh autoincrement id; return the new row. -/
def crud_create_user (db : DB) (user : UserCreate) : UserRec × DB :=
  let u : UserRec := { id := db.nextUserId, email := user.email, video_quota := 10 }
  (u, { db with users := db.users ++ [u], nextUserId := db.nextUserId + 1 })

/-- `crud.get_videos_by_user`: the user's videos with offset/limit. -/
def get_videos_by_user (db : DB) (user_id : Nat) (skip limit : Nat) : List VideoRec :=
  (((db.videos.filter (fun v => v.user_id = user_id)).drop skip).take limit)

/-- `crud.create_user_video`: insert `models.Video(**video.dict(),
user_id=user_id)`; `video_url` and `status` take their column
defaults (`NULL` and "processing"). -/
def create_user_video (db : DB) (video : VideoCreate) (user_id : Nat) :
    VideoRec × DB :=
  let v : VideoRec :=
    { id := db.nextVideoId
      user_id := user_id
      title := video.title
      original_text := video.original_text
      video_url := none
      template := video.template
      status := "processing" }
  (v, { db with videos := db.videos ++ [v], nextVideoId := db.nextVideoId + 1 })

/-- A FastAPI `HTTPException` as raised by the handlers. -/
structure HTTPError where
  status_code : Nat
  detail : String
deriving DecidableEq, Repr

/-- `POST /users/` (`main.create_user`): 400 "Email already
registered" if `get_user_by_email` finds a row, else
`crud.create_user`. -/
def create_user_endpoint (db : DB) (user : UserCreate) :
    Except HTTPError UserRec × DB :=
  match get_user_by_email db user.email with
  | some _ => (.error { status_code := 400, detail := "Email already registered" }, db)
  | none =>
    let (u, db2) := crud_create_user db user
    (.ok u, db2)

/-- `GET /users/{user_id}/videos` (`main.read_user_videos`): a read,
returning the rows and leaving the database as it is. -/
def read_user_videos (db : DB) (user_id : Nat) (skip limit : Nat) :
    List VideoRec × DB :=
  (get_videos_by_user db user_id skip limit, db)

/-- The request body of `POST /generate-video`. -/
structure GenerateVideoRequest where
  text : String
  template : String
  voice_type : String
  user_id : String
deriving DecidableEq, Repr

/-- The API key hardcoded in `main.generate_video`. -/
def hardcoded_api_key : String :=
  "sk_ba0a244e846b46b2cfd76474afca7e11c5b54b5048686167"

/-- `POST /generate-video` (`main.generate_video`): runs the pipeline
with `out_dir = os.path.join("static", "videos")`, `duration=60` and
the hardcoded key, and returns the pipeline result directly.  The
handler takes no database session; the state it returns is the state
it was given. -/
def generate_video (req : GenerateVideoRequest) (job_id : String)
    (generator : String → String) (ttsResponse : TTSResponse)
    (env_key : Option String) (db : DB) : PipeOut × DB :=
  (process_video_pipeline req.text req.template req.voice_type req.user_id
    (pathJoin "static" "videos") 60 job_id generator ttsResponse
    (some hardcoded_api_key) env_key, db)

/-- The response of `GET /video-status/{video_id}`. -/
structure VideoStatusResponse where
  video_id : String
  status : String
  video_url : String
deriving DecidableEq, Repr

/-- `GET /video-status/{video_id}` (`main.get_video_status`): the mock
endpoint, returning "completed" and a fixed sample URL for every id. -/
def get_video_status (video_id : String) : VideoStatusResponse :=
  { video_id := video_id, status := "completed", video_url := "/videos/sample.mp4" }

/-- Every operation of the program that receives a database session,
as one inductive: the two mutating crud paths reached from the
endpoints, the two reads, and the generation endpoint (which ignores
the database). -/
inductive DBOp
  | opCreateUser (user : UserCreate)
  | opReadUserVideos (user_id : Nat) (skip limit : Nat)
  | opCreateUserVideo (video : VideoCreate) (user_id : Nat)
  | opGetUserByEmail (email : String)
  | opGenerateVideo (req : GenerateVideoRequest) (job_id : String)
      (generator : String → String) (ttsResponse : TTSResponse)
      (env_key : Option String)

/-- The database state after running one operation. -/
def applyOp (op : DBOp) (db : DB) : DB :=
  match op with
  | .opCreateUser user => (create_user_endpoint db user).2
  | .opReadUserVideos user_id skip limit => (read_user_videos db user_id skip limit).2
  | .opCreateUserVideo video user_id => (create_user_video db video user_id).2
  | .opGetUserByEmail _ => db
  | .opGenerateVideo req job_id generator ttsResponse env_key =>
    (generate_video req job_id generator ttsResponse env_key db).2

/-- Whether an `Except` value is a success. -/
def isOkE {ε α : Type} : Except ε α → Bool
  | .ok _ => true
  | .error _ => false

/-- A path lies directly inside the job directory `out_dir/job_id`:
it is that directory joined with some entry name. -/
def jobScoped (out_dir job_id p : String) : Prop :=
  ∃ name, p = pathJoin (pathJoin out_dir job_id) name

/-! ## Theorems -/

/-- The image paths of `generate_images` depend only on the indices:
they are `out_dir/img_{i+1}.png` for `i` below the prompt count. -/
lemma generate_images_paths_eq (prompts : List String) (out_dir : String) :
    (generate_images prompts out_dir).paths =
      (List.range prompts.length).map
        (fun i => pathJoin out_dir ("img_" ++ toString (i + 1) ++ ".png")) := by
  have h : (fun ip : Nat × String =>
        pathJoin out_dir ("img_" ++ toString (ip.1 + 1) ++ ".png")) =
      (fun i : Nat => pathJoin out_dir ("img_" ++ toString (i + 1) ++ ".png")) ∘
        Prod.fst := rfl
  simp only [generate_images, h, ← List.map_map, List.enum_map_fst]

/-- `generate_images` returns as many paths as prompts. -/
lemma generate_images_paths_length (prompts : List String) (out_dir : String) :
    (generate_images prompts out_dir).paths.length = prompts.length := by
  simp [generate_images]

/-- Claim C3 (counterexample): on the empty image list,
`assemble_video` fails at the subscript `image_paths[0]` (an
IndexError inside the `img_pattern` computation), not at the
per-image duration division, which is never reached. -/
theorem claim_C3_counterexample :
    assemble_video [] "audio.mp3" "out.mp4" 60 = .error .indexFirstImage
    ∧ AsmError.indexFirstImage ≠ AsmError.divDurationByCount :=
  ⟨rfl, by decide⟩

/-- Claim C3 (amended): with a zero-length image list `assemble_video`
fails, and the failing operation is the indexing `image_paths[0]` in
the `img_pattern` computation, which precedes the duration division. -/
theorem claim_C3_amended_holds (audio_path out_path : String) (duration : Int) :
    assemble_video [] audio_path out_path duration = .error .indexFirstImage :=
  rfl

/-- Claim C6: `generate_images` makes one model call per prompt, in
prompt order, with no batching; the returned path list has the same
length as the prompt list and its i-th element (0-based) is
`out_dir/img_{i+1}.png`. -/
theorem claim_C6 (prompts : List String) (out_dir : String) :
    (generate_images prompts out_dir).calls = prompts
    ∧ (generate_images prompts out_dir).paths.length = prompts.length
    ∧ ∀ i, i < prompts.length →
        (generate_images prompts out_dir).paths.get? i =
          some (pathJoin out_dir ("img_" ++ toString (i + 1) ++ ".png")) := by
  refine ⟨rfl, generate_images_paths_length prompts out_dir, ?_⟩
  · intro i hi
    rw [generate_images_paths_eq]
    simp [List.get?_eq_getElem?, List.getElem?_map, List.getElem?_range hi]

/-- Claim C6 witness at two prompts: the second image path. -/
theorem claim_C6_witness :
    (generate_images ["a cat", "a dog"] "static/videos/j").paths.get? 1 =
      some (pathJoin "static/videos/j" ("img_" ++ toString (1 + 1) ++ ".png")) :=
  (claim_C6 ["a cat", "a dog"] "static/videos/j").2.2 1 (by decide)

/-- Successful assembly pins down the per-image duration: the list was
non-empty and `plan.img_duration` is the Python floor division
`duration // len(image_paths)`, which is non-zero. -/
lemma assemble_ok_img_duration {image_paths : List String}
    {audio_path out_path : String} {duration : Int} {plan : AsmPlan}
    (h : assemble_video image_paths audio_path out_path duration = .ok plan) :
    image_paths ≠ []
    ∧ plan.img_duration = Int.fdiv duration (image_paths.length : Int)
    ∧ Int.fdiv duration (image_paths.length : Int) ≠ 0 := by
  cases image_paths with
  | nil => simp [assemble_video] at h
  | cons first rest =>
    refine ⟨by simp, ?_⟩
    simp only [assemble_video, List.head?_cons] at h
    split at h
    · exact absurd h (by simp)
    · split at h
      · exact absurd h (by simp)
      · rename_i hdz
        cases h
        exact ⟨rfl, hdz⟩

/-- For a natural duration and a positive count, the floor division is
zero exactly when the count exceeds the duration. -/
lemma fdiv_eq_zero_iff_lt {d : Int} (hd : 0 ≤ d) {n : Nat} (hn : 0 < n) :
    Int.fdiv d (n : Int) = 0 ↔ d < (n : Int) := by
  obtain ⟨m, rfl⟩ := Int.eq_ofNat_of_zero_le hd
  rw [Int.fdiv_eq_ediv _ (by positivity), ← Int.ofNat_ediv]
  constructor
  · intro h
    have hm : m / n = 0 := by exact_mod_cast h
    have := (Nat.div_eq_zero_iff hn).mp hm
    exact_mod_cast this
  · intro h
    have hm : m < n := by exact_mod_cast h
    have := Nat.div_eq_of_lt hm
    simp [this]

/-- Claim C4 (counterexample): with two images and `duration = -1` the
image count (2) exceeds the duration, yet the per-image duration is the
Python floor division `-1 // 2 = -1`, not zero, no division error is
raised, and the external-tool call is reached although the count is not
at most the duration. -/
theorem claim_C4_counterexample :
    assemble_video ["d/img_1.png", "d/img_2.png"] "d/audio.mp3" "d/video.mp4" (-1) =
      .ok { img_pattern := "d/img_%d.png"
            video_tmp := "d/video_tmp.mp4"
            img_duration := -1
            audio_in := "d/audio.mp3"
            removed := "d/video_tmp.mp4"
            ret := "d/video.mp4" }
    ∧ ¬ ((2 : Int) ≤ (-1 : Int)) :=
  ⟨rfl, by decide⟩

/-- Claim C4 (amended): for a non-negative duration and a non-empty
image list, `assemble_video` reaches the external-tool call exactly
when the image count is at most the duration; when the count exceeds
the duration the floor division makes `img_duration` zero and the
framerate computation `1/img_duration` raises the division-by-zero
error. -/
theorem claim_C4_amended_holds (image_paths : List String)
    (audio_path out_path : String) (duration : Int)
    (hne : image_paths ≠ []) (hd : 0 ≤ duration) :
    (isOkE (assemble_video image_paths audio_path out_path duration) = true ↔
      (image_paths.length : Int) ≤ duration)
    ∧ ((duration : Int) < (image_paths.length : Int) →
        assemble_video image_paths audio_path out_path duration =
          .error .divOneByImgDuration) := by
  have hlen : 0 < image_paths.length := List.length_pos.mpr hne
  have hcast : ¬ ((image_paths.length : Int) = 0) := by
    exact_mod_cast Nat.pos_iff_ne_zero.mp hlen
  obtain ⟨first, hh⟩ : ∃ f, image_paths.head? = some f := by
    cases image_paths with
    | nil => exact absurd rfl hne
    | cons a l => exact ⟨a, rfl⟩
  have hiff := fdiv_eq_zero_iff_lt hd hlen
  have hred : assemble_video image_paths audio_path out_path duration =
      (if Int.fdiv duration (image_paths.length : Int) = 0 then
        .error .divOneByImgDuration
      else
        .ok { img_pattern := pathJoin (dirname first) "img_%d.png"
              video_tmp := pyReplace out_path ".mp4" "_tmp.mp4"
              img_duration := Int.fdiv duration (image_paths.length : Int)
              audio_in := audio_path
              removed := pyReplace out_path ".mp4" "_tmp.mp4"
              ret := out_path }) := by
    simp only [assemble_video, hh]
    rw [if_neg hcast]
  by_cases hz : Int.fdiv duration (image_paths.length : Int) = 0
  · rw [hred, if_pos hz]
    have hlt : duration < (image_paths.length : Int) := hiff.mp hz
    refine ⟨⟨fun hok => ?_, fun hle => ?_⟩, fun _ => rfl⟩
    · simp [isOkE] at hok
    · exact absurd hle (not_le.mpr hlt)
  · rw [hred, if_neg hz]
    have hle : (image_paths.length : Int) ≤ duration :=
      not_lt.mp (fun hlt => hz (hiff.mpr hlt))
    refine ⟨⟨fun _ => hle, fun _ => rfl⟩, fun hlt => absurd hle (not_le.mpr hlt)⟩

/-- Claim C4 witness at three images and duration 2: the count exceeds
the duration, and the run aborts with the framerate division error. -/
theorem claim_C4_witness :
    assemble_video ["d/img_1.png", "d/img_2.png", "d/img_3.png"]
        "d/audio.mp3" "d/video.mp4" 2 = .error .divOneByImgDuration :=
  (claim_C4_amended_holds ["d/img_1.png", "d/img_2.png", "d/img_3.png"]
    "d/audio.mp3" "d/video.mp4" 2 (by decide) (by decide)).2 (by decide)

/-- Claim C5 (counterexample): with seven images and total duration 60
each image gets `60 // 7 = 8`, and the per-image durations sum to 56,
not to the given total duration. -/
theorem claim_C5_counterexample :
    assemble_video
        ["d/img_1.png", "d/img_2.png", "d/img_3.png", "d/img_4.png",
         "d/img_5.png", "d/img_6.png", "d/img_7.png"]
        "d/audio.mp3" "d/video.mp4" 60 =
      .ok { img_pattern := "d/img_%d.png"
            video_tmp := "d/video_tmp.mp4"
            img_duration := 8
            audio_in := "d/audio.mp3"
            removed := "d/video_tmp.mp4"
            ret := "d/video.mp4" }
    ∧ (List.map (fun _ => (8 : Int))
        ["d/img_1.png", "d/img_2.png", "d/img_3.png", "d/img_4.png",
         "d/img_5.png", "d/img_6.png", "d/img_7.png"]).sum ≠ 60 :=
  ⟨rfl, by decide⟩

/-- Claim C5 (amended): on a successful assembly every image gets the
same per-image duration, the floor division `duration // len`, and the
per-image durations sum to `len * (duration // len)`, which equals the
given total duration exactly when the image count divides it. -/
theorem claim_C5_amended_holds (image_paths : List String)
    (audio_path out_path : String) (duration : Int) (plan : AsmPlan)
    (h : assemble_video image_paths audio_path out_path duration = .ok plan) :
    plan.img_duration = Int.fdiv duration (image_paths.length : Int)
    ∧ (image_paths.map (fun _ => plan.img_duration)).sum =
        (image_paths.length : Int) * Int.fdiv duration (image_paths.length : Int)
    ∧ ((image_paths.map (fun _ => plan.img_duration)).sum = duration ↔
        (image_paths.length : Int) ∣ duration) := by
  obtain ⟨hne, hdur, hnz⟩ := assemble_ok_img_duration h
  have hlen : 0 < image_paths.length := List.length_pos.mpr hne
  have hsum : (image_paths.map (fun _ => plan.img_duration)).sum =
      (image_paths.length : Int) * Int.fdiv duration (image_paths.length : Int) := by
    rw [hdur, List.map_const', List.sum_replicate, nsmul_eq_mul]
  refine ⟨hdur, hsum, ?_⟩
  rw [hsum]
  constructor
  · intro heq
    exact ⟨Int.fdiv duration (image_paths.length : Int), heq.symm⟩
  · intro hdvd
    rw [Int.fdiv_eq_ediv _ (by positivity)]
    exact Int.mul_ediv_cancel' hdvd

/-- Claim C5 witness at three images and duration 60: each image gets
20 seconds and the durations sum to the full 60. -/
theorem claim_C5_witness :
    (["d/img_1.png", "d/img_2.png", "d/img_3.png"].map
      (fun _ => (AsmPlan.mk "d/img_%d.png" "d/video_tmp.mp4" 20
        "d/audio.mp3" "d/video_tmp.mp4" "d/video.mp4").img_duration)).sum = 60 :=
  ((claim_C5_amended_holds ["d/img_1.png", "d/img_2.png", "d/img_3.png"]
      "d/audio.mp3" "d/video.mp4" 60
      (AsmPlan.mk "d/img_%d.png" "d/video_tmp.mp4" 20
        "d/audio.mp3" "d/video_tmp.mp4" "d/video.mp4") rfl).2.2).mpr (by decide)

/-- A successful `generate_audio` returns exactly the requested output
path paired with the response bytes. -/
lemma generate_audio_ok {text voice out_path : String}
    {api_key env_key : Option String} {response : TTSResponse}
    {pr : String × List Nat}
    (h : generate_audio text voice out_path api_key env_key response = .ok pr) :
    pr = (out_path, response.content) := by
  cases api_key with
  | none =>
    cases env_key with
    | none => simp [generate_audio] at h
    | some e =>
      simp only [generate_audio] at h
      split at h
      · exact absurd h (by simp)
      · split at h
        · exact absurd h (by simp)
        · cases h
          rfl
  | some k =>
    simp only [generate_audio] at h
    split at h
    · exact absurd h (by simp)
    · split at h
      · exact absurd h (by simp)
      · cases h
        rfl

/-- Every path `generate_images` writes lies directly inside its
output directory. -/
lemma generate_images_writes_scoped (prompts : List String) (d : String) :
    ∀ p ∈ (generate_images prompts d).paths, ∃ name, p = pathJoin d name := by
  rw [generate_images_paths_eq]
  intro p hp
  obtain ⟨i, _, rfl⟩ := List.mem_map.mp hp
  exact ⟨_, rfl⟩

/-- Claim C1: a pipeline invocation runs its stages in the fixed order
enhance, generate images, generate audio, assemble (all four when it
completes, a prefix of that order when the TTS call raises), the
result's job identifier is exactly the identifier drawn for the
invocation, and every artifact written — image files, audio file,
video file — lies inside the job-scoped directory `out_dir/job_id`. -/
theorem claim_C1 (text template voice_type user_id out_dir : String)
    (duration : Int) (job_id : String) (generator : String → String)
    (ttsResponse : TTSResponse) (api_key env_key : Option String)
    (out : PipeOut)
    (hout : process_video_pipeline text template voice_type user_id out_dir
        duration job_id generator ttsResponse api_key env_key = out) :
    (out.stages = [.enhance, .genImages, .genAudio, .assemble]
      ∨ out.stages = [.enhance, .genImages, .genAudio])
    ∧ (∀ r, out.outcome = .ok r →
        out.stages = [.enhance, .genImages, .genAudio, .assemble]
        ∧ r.job_id = job_id)
    ∧ (∀ p, p ∈ out.writes → jobScoped out_dir job_id p) := by
  subst hout
  simp only [process_video_pipeline]
  have himgs := generate_images_writes_scoped
    (buildPrompts template (enhance_text generator text)) (pathJoin out_dir job_id)
  cases hga : generate_audio (enhance_text generator text) voice_type
      (pathJoin (pathJoin out_dir job_id) "audio.mp3") api_key env_key
      ttsResponse with
  | error e =>
    refine ⟨Or.inr rfl, fun r hr => by simp at hr, fun p hp => ?_⟩
    exact himgs p hp
  | ok pr =>
    have hpr := generate_audio_ok hga
    obtain ⟨apath, bytes⟩ := pr
    have hap : apath = pathJoin (pathJoin out_dir job_id) "audio.mp3" :=
      congrArg Prod.fst hpr
    dsimp only
    cases hasm : assemble_video
        (generate_images (buildPrompts template (enhance_text generator text))
          (pathJoin out_dir job_id)).paths apath
        (pathJoin (pathJoin out_dir job_id) "video.mp4") duration with
    | error e =>
      dsimp only
      refine ⟨Or.inl rfl, fun r hr => by simp at hr, fun p hp => ?_⟩
      rcases List.mem_append.mp hp with hmem | hmem
      · exact himgs p hmem
      · rcases List.mem_singleton.mp hmem with rfl
        exact ⟨"audio.mp3", hap⟩
    | ok plan =>
      dsimp only
      refine ⟨Or.inl rfl, fun r hr => ?_, fun p hp => ?_⟩
      · refine ⟨rfl, ?_⟩
        cases hr
        rfl
      · rcases List.mem_append.mp hp with hmem | hmem
        · exact himgs p hmem
        · cases hmem with
          | head => exact ⟨"audio.mp3", hap⟩
          | tail _ hmem2 =>
            cases hmem2 with
            | head => exact ⟨"video.mp4", rfl⟩
            | tail _ hmem3 => cases hmem3

/-- Claim C1 witness: a complete concrete run with two sentences, a
200 TTS response and a 60-second duration executes all four stages and
reports the drawn job identifier. -/
theorem claim_C1_witness :
    (process_video_pipeline "t" "tmpl" "Rachel" "u7" "static/videos" 60 "job1"
        (fun _ => "A cat. A dog.") { status_code := 200, content := [1] }
        (some "key") none).stages =
      [.enhance, .genImages, .genAudio, .assemble]
    ∧ PipelineResult.job_id
        { job_id := "job1"
          video_path := "static/videos/job1/video.mp4"
          image_paths := ["static/videos/job1/img_1.png", "static/videos/job1/img_2.png"]
          audio_path := "static/videos/job1/audio.mp3"
          prompts := ["tmpl educational image: A cat", "tmpl educational image: A dog"]
          enhanced_text := "A cat. A dog." } = "job1" :=
  (claim_C1 "t" "tmpl" "Rachel" "u7" "static/videos" 60 "job1"
    (fun _ => "A cat. A dog.") { status_code := 200, content := [1] }
    (some "key") none _ rfl).2.1
    { job_id := "job1"
      video_path := "static/videos/job1/video.mp4"
      image_paths := ["static/videos/job1/img_1.png", "static/videos/job1/img_2.png"]
      audio_path := "static/videos/job1/audio.mp3"
      prompts := ["tmpl educational image: A cat", "tmpl educational image: A dog"]
      enhanced_text := "A cat. A dog." }
    rfl

/-- Claim C2 (counterexample): status 201 is a 2xx success status, yet
`generate_audio` raises the API error, because the code tests
`status_code != 200`, not membership in the 2xx class. -/
theorem claim_C2_counterexample :
    generate_audio "hello" "Rachel" "out.mp3" (some "key") none
        { status_code := 201, content := [1, 2, 3] } =
      .error (.apiError 201)
    ∧ 200 ≤ 201 ∧ 201 < 300 :=
  ⟨rfl, by decide, by decide⟩

/-- Claim C2 (amended): given a non-empty API key, `generate_audio`
raises exactly when the response status differs from 200 (so also on
other 2xx statuses), consuming the single response with no retry; on
status 200 it writes exactly the response's bytes to the given output
path and returns that path. -/
theorem claim_C2_amended_holds (text voice out_path : String) (key : String)
    (env_key : Option String) (response : TTSResponse) (hk : key ≠ "") :
    (generate_audio text voice out_path (some key) env_key response =
        .error (.apiError response.status_code) ↔ response.status_code ≠ 200)
    ∧ (response.status_code = 200 →
        generate_audio text voice out_path (some key) env_key response =
          .ok (out_path, response.content)) := by
  by_cases hs : response.status_code = 200
  · refine ⟨⟨fun habs => ?_, fun hne => absurd hs hne⟩, fun _ => ?_⟩
    · simp [generate_audio, hk, hs] at habs
    · simp [generate_audio, hk, hs]
  · refine ⟨⟨fun _ => hs, fun _ => ?_⟩, fun h200 => absurd h200 hs⟩
    simp [generate_audio, hk, hs]

/-- Claim C2 witness at status 200: the canned bytes `[7, 8, 9]` are
written verbatim to the requested path. -/
theorem claim_C2_witness :
    generate_audio "some text" "Rachel" "j/audio.mp3" (some "key") none
        { status_code := 200, content := [7, 8, 9] } =
      .ok ("j/audio.mp3", [7, 8, 9]) :=
  (claim_C2_amended_holds "some text" "Rachel" "j/audio.mp3" "key" none
    { status_code := 200, content := [7, 8, 9] } (by decide)).2 rfl

/-- Claim C8: the prompt list is built from the first three non-empty
stripped period-separated segments of the enhanced text, each prompt
being exactly "{template} educational image: {stripped segment}"; so
there are at most 3 prompts and hence at most 3 generated images. -/
theorem claim_C8 (template enhanced_text out_dir : String) :
    buildPrompts template enhanced_text =
      ((((pySplitDot enhanced_text).map pyStrip).filter (fun s => s ≠ "")).take 3).map
        (fun seg => template ++ " educational image: " ++ seg)
    ∧ (buildPrompts template enhanced_text).length ≤ 3
    ∧ (generate_images (buildPrompts template enhanced_text) out_dir).paths.length ≤ 3 := by
  have hmain :
      buildPrompts template enhanced_text =
        ((((pySplitDot enhanced_text).map pyStrip).filter (fun s => s ≠ "")).take 3).map
          (fun seg => template ++ " educational image: " ++ seg) := by
    simp only [buildPrompts, List.filter_map, ← List.map_take, List.map_map]
    rfl
  refine ⟨hmain, ?_, ?_⟩
  · simp only [buildPrompts]
    exact le_trans (List.length_take_le 3 _) (le_refl 3)
  · rw [generate_images_paths_length]
    simp only [buildPrompts]
    exact le_trans (List.length_take_le 3 _) (le_refl 3)

/-- Claim C7: the video-generation endpoint never writes to the
database — it has no session at all; the pipeline output is returned
to the caller exactly as produced, and the `users` and `videos` tables
after the request are the tables before it. -/
theorem claim_C7 (req : GenerateVideoRequest) (job_id : String)
    (generator : String → String) (ttsResponse : TTSResponse)
    (env_key : Option String) (db : DB) :
    (generate_video req job_id generator ttsResponse env_key db).2 = db
    ∧ (generate_video req job_id generator ttsResponse env_key db).1 =
        process_video_pipeline req.text req.template req.voice_type req.user_id
          (pathJoin "static" "videos") 60 job_id generator ttsResponse
          (some hardcoded_api_key) env_key :=
  ⟨rfl, rfl⟩

/-- Claim C9: the create-user endpoint answers 400 "Email already
registered" exactly when a user with the requested email is already
persisted, leaving the table unchanged in that case; otherwise it
appends and returns a fresh user with that email, and pairwise email
uniqueness of the table is preserved. -/
theorem claim_C9 (db : DB) (user : UserCreate)
    (huniq : List.Pairwise (fun a b => a.email ≠ b.email) db.users) :
    ((∃ u ∈ db.users, u.email = user.email) →
      create_user_endpoint db user =
        (.error { status_code := 400, detail := "Email already registered" }, db))
    ∧ ((¬ ∃ u ∈ db.users, u.email = user.email) →
      (create_user_endpoint db user).1 =
          .ok { id := db.nextUserId, email := user.email, video_quota := 10 }
        ∧ ((create_user_endpoint db user).2).users =
            db.users ++ [{ id := db.nextUserId, email := user.email, video_quota := 10 }])
    ∧ ((create_user_endpoint db user).1 =
          .error { status_code := 400, detail := "Email already registered" } ↔
        ∃ u ∈ db.users, u.email = user.email)
    ∧ List.Pairwise (fun a b => a.email ≠ b.email)
        ((create_user_endpoint db user).2).users := by
  have hchar : (db.users.find? (fun u => u.email = user.email)).isSome ↔
      ∃ u ∈ db.users, u.email = user.email := by
    rw [List.find?_isSome]
    simp
  cases hfind : db.users.find? (fun u => u.email = user.email) with
  | some u0 =>
    have hex : ∃ u ∈ db.users, u.email = user.email := by
      rw [← hchar, hfind]
      rfl
    refine ⟨fun _ => ?_, fun hne => absurd hex hne, ⟨fun _ => hex, fun _ => ?_⟩, ?_⟩
    · simp [create_user_endpoint, get_user_by_email, hfind]
    · simp [create_user_endpoint, get_user_by_email, hfind]
    · simpa [create_user_endpoint, get_user_by_email, hfind] using huniq
  | none =>
    have hnone : ∀ u ∈ db.users, u.email ≠ user.email := by
      intro u hu
      have := List.find?_eq_none.mp hfind u hu
      simpa using this
    have hnex : ¬ ∃ u ∈ db.users, u.email = user.email := by
      rintro ⟨u, hu, he⟩
      exact hnone u hu he
    refine ⟨fun hex => absurd hex hnex, fun _ => ?_, ⟨fun habs => ?_, fun hex => absurd hex hnex⟩, ?_⟩
    · constructor
      · simp [create_user_endpoint, get_user_by_email, hfind, crud_create_user]
      · simp [create_user_endpoint, get_user_by_email, hfind, crud_create_user]
    · simp [create_user_endpoint, get_user_by_email, hfind] at habs
    · simp only [create_user_endpoint, get_user_by_email, hfind, crud_create_user]
      rw [List.pairwise_append]
      refine ⟨huniq, List.pairwise_singleton _ _, ?_⟩
      intro a ha b hb
      rcases List.mem_singleton.mp hb with rfl
      exact hnone a ha

/-- Claim C9 witness: against a one-user table, creating a user with a
fresh email succeeds and appends the new row. -/
theorem claim_C9_witness :
    (create_user_endpoint ⟨[⟨1, "a@b.com", 10⟩], [], 2, 1⟩ ⟨"new@x.com"⟩).1 =
        .ok ⟨2, "new@x.com", 10⟩
    ∧ ((create_user_endpoint ⟨[⟨1, "a@b.com", 10⟩], [], 2, 1⟩ ⟨"new@x.com"⟩).2).users =
        [⟨1, "a@b.com", 10⟩] ++ [⟨2, "new@x.com", 10⟩] :=
  (claim_C9 ⟨[⟨1, "a@b.com", 10⟩], [], 2, 1⟩ ⟨"new@x.com"⟩
    (List.pairwise_singleton _ _)).2.1 (by decide)

/-- The create-user endpoint never touches the `videos` table. -/
lemma create_user_endpoint_videos (db : DB) (user : UserCreate) :
    ((create_user_endpoint db user).2).videos = db.videos := by
  cases hfind : get_user_by_email db user.email with
  | some u => simp [create_user_endpoint, hfind]
  | none => simp [create_user_endpoint, hfind, crud_create_user]

/-- Claim C10: every video row is created with status "processing"
(the column default, which `crud.create_user_video` never overrides),
no operation of the program ever changes a persisted video row — rows
only persist unchanged or get appended with status "processing" — and
the mock status endpoint reports "completed" with the fixed sample URL
for every identifier, independent of any persisted state. -/
theorem claim_C10 :
    (∀ (db : DB) (video : VideoCreate) (user_id : Nat),
      (create_user_video db video user_id).1.status = "processing"
      ∧ (create_user_video db video user_id).2.videos =
          db.videos ++ [(create_user_video db video user_id).1])
    ∧ (∀ (op : DBOp) (db : DB), ∀ v ∈ db.videos, v ∈ (applyOp op db).videos)
    ∧ (∀ (op : DBOp) (db : DB), ∀ v ∈ (applyOp op db).videos,
        v ∈ db.videos ∨ v.status = "processing")
    ∧ (∀ video_id : String, get_video_status video_id =
        { video_id := video_id, status := "completed",
          video_url := "/videos/sample.mp4" }) := by
  refine ⟨fun db video user_id => ⟨rfl, rfl⟩, ?_, ?_, fun _ => rfl⟩
  · intro op db v hv
    cases op with
    | opCreateUser user =>
      simpa only [applyOp, create_user_endpoint_videos] using hv
    | opReadUserVideos uid skip limit => exact hv
    | opCreateUserVideo video uid =>
      exact List.mem_append.mpr (Or.inl hv)
    | opGetUserByEmail email => exact hv
    | opGenerateVideo req job_id generator resp env_key => exact hv
  · intro op db v hv
    cases op with
    | opCreateUser user =>
      exact Or.inl (by simpa only [applyOp, create_user_endpoint_videos] using hv)
    | opReadUserVideos uid skip limit => exact Or.inl hv
    | opCreateUserVideo video uid =>
      rcases List.mem_append.mp hv with hmem | hmem
      · exact Or.inl hmem
      · rcases List.mem_singleton.mp hmem with rfl
        exact Or.inr rfl
    | opGetUserByEmail email => exact Or.inl hv
    | opGenerateVideo req job_id generator resp env_key => exact Or.inl hv

/-- Claim C10 witness: a persisted video row (even one whose status is
not "processing") survives a video-creating operation unchanged. -/
theorem claim_C10_witness :
    VideoRec.mk 3 1 "T" "orig" none "modern" "done" ∈
      (applyOp (.opCreateUserVideo ⟨"Title", "text", "modern"⟩ 1)
        ⟨[], [VideoRec.mk 3 1 "T" "orig" none "modern" "done"], 1, 5⟩).videos :=
  claim_C10.2.1 (.opCreateUserVideo ⟨"Title", "text", "modern"⟩ 1)
    ⟨[], [VideoRec.mk 3 1 "T" "orig" none "modern" "done"], 1, 5⟩
    (VideoRec.mk 3 1 "T" "orig" none "modern" "done") (by decide)
